import Mathlib

/-!
Verification of the CredTech credit-scoring application.

The scoring engine, the news-sentiment fetcher and the financial fetcher are
embedded from `src/app.py`.  Python floats are modelled as rationals (`ℚ`);
every comparison in the code is exact at the values the claims mention, so the
rational model is faithful there.  The network is modelled by passing the
decoded provider response (or its failure) as an explicit argument, and the
external sentiment scorer (TextBlob) as an explicit polarity function.
-/

set_option autoImplicit false

namespace CredTech

/-- Two-decimal fixed-point rendering of a rational, modelling Python's
`f"{x:.2f}"` formatting (round to nearest at the second decimal). -/
def fmt2 (q : ℚ) : String :=
  let n : Int := round (q * 100)
  let sgn : String := if n < 0 then "-" else ""
  let m : Nat := n.natAbs
  sgn ++ toString (m / 100) ++ "." ++ (if m % 100 < 10 then "0" else "") ++ toString (m % 100)

/-- Explanation line of the `dte_ratio < 0.5` branch in `predict_credit_score`. -/
def veryLowMsg (d : ℚ) : String :=
  "✔️ Very Low Debt-to-Equity (" ++ fmt2 d ++ ") is a strong positive signal. (+20 pts)"

/-- Explanation line of the `dte_ratio < 1.0` branch in `predict_credit_score`. -/
def healthyMsg (d : ℚ) : String :=
  "✔️ Healthy Debt-to-Equity (" ++ fmt2 d ++ ") is a good sign. (+10 pts)"

/-- Explanation line of the `else` leverage branch in `predict_credit_score`. -/
def highMsg (d : ℚ) : String :=
  "❌ High Debt-to-Equity (" ++ fmt2 d ++ ") increases financial risk. (-20 pts)"

/-- Explanation line of the `sentiment > 0.2` branch in `predict_credit_score`. -/
def strongPosMsg (s : ℚ) : String :=
  "✔️ Strong Positive News Sentiment (" ++ fmt2 s ++ ") suggests a good public outlook. (+20 pts)"

/-- Explanation line of the `sentiment < -0.2` branch in `predict_credit_score`. -/
def strongNegMsg (s : ℚ) : String :=
  "❌ Strong Negative News Sentiment (" ++ fmt2 s ++ ") suggests potential issues. (-20 pts)"

/-- Explanation line of the neutral sentiment branch in `predict_credit_score`. -/
def neutralMsg (s : ℚ) : String :=
  "➖ Neutral News Sentiment (" ++ fmt2 s ++ ") has no major impact. (+0 pts)"

/-- Embedding of `predict_credit_score` (src/app.py, lines 84-118).  The inputs
are the `debt_to_equity` field of the financial data and the
`news_sentiment_score` field of the news data; the output is the pair
`(final_score, explanation)` the Python function returns.  The literals `0.5`,
`1.0`, `0.2`, `-0.2` become the rationals `1/2`, `1`, `1/5`, `-(1/5)`. -/
def predict_credit_score (d s : ℚ) : Int × List String :=
  let score : Int := 50
  let explanation : List String := ["Base Score: 50"]
  let step1 : Int × List String :=
    if d < 1/2 then (score + 20, explanation ++ [veryLowMsg d])
    else if d < 1 then (score + 10, explanation ++ [healthyMsg d])
    else (score - 20, explanation ++ [highMsg d])
  let step2 : Int × List String :=
    if s > 1/5 then (step1.1 + 20, step1.2 ++ [strongPosMsg s])
    else if s < -(1/5) then (step1.1 - 20, step1.2 ++ [strongNegMsg s])
    else (step1.1, step1.2 ++ [neutralMsg s])
  (max 0 (min 100 step2.1), step2.2)

/-- Point delta contributed by the leverage rule (Rule 1 of
`predict_credit_score`). -/
def leverageDelta (d : ℚ) : Int :=
  if d < 1/2 then 20 else if d < 1 then 10 else -20

/-- Point delta contributed by the sentiment rule (Rule 2 of
`predict_credit_score`). -/
def sentimentDelta (s : ℚ) : Int :=
  if s > 1/5 then 20 else if s < -(1/5) then -20 else 0

/-- Explanation line appended by the leverage rule. -/
def leverageLine (d : ℚ) : String :=
  if d < 1/2 then veryLowMsg d else if d < 1 then healthyMsg d else highMsg d

/-- Explanation line appended by the sentiment rule. -/
def sentimentLine (s : ℚ) : String :=
  if s > 1/5 then strongPosMsg s else if s < -(1/5) then strongNegMsg s else neutralMsg s

/-- Closed form of the scoring engine: the score is the base 50 plus the two
rule deltas, clamped once at the end, and the explanation is the base line
followed by the two rule lines. -/
theorem predict_credit_score_eq (d s : ℚ) :
    predict_credit_score d s =
      (max 0 (min 100 (50 + leverageDelta d + sentimentDelta s)),
        ["Base Score: 50", leverageLine d, sentimentLine s]) := by
  unfold predict_credit_score leverageDelta sentimentDelta leverageLine sentimentLine
  split_ifs <;> simp

/-- Outcome of the primary financial provider's HTTP call as seen by
`fetch_financial_data` after JSON decoding: the request or decoding may raise
(`err`, the `requests` exception path), the `DebtToEquity` field may be absent
or JSON `null` (`missing`), or the field is present and non-null and Python's
`float()` either parses it (`value (some q)`) or raises `ValueError`
(`value none`). -/
inductive PrimaryResult where
  | err : PrimaryResult
  | missing : PrimaryResult
  | value : Option ℚ → PrimaryResult

/-- Embedding of `fetch_financial_data` (src/app.py, lines 29-51).  A request
or parse error is caught by the `except` clause and yields `None`; a missing
or null `DebtToEquity` field yields the neutral default `1.0`; otherwise the
parsed ratio is returned. -/
def fetch_financial_data : PrimaryResult → Option ℚ
  | .err => none
  | .missing => some 1
  | .value none => none
  | .value (some q) => some q

/-- Outcome of one financial data provider as the canonical resolver sees it:
either a usable numeric debt-to-equity field, or failure (network error,
missing field, parse error). -/
inductive ProviderResult where
  | fail : ProviderResult
  | ok : ℚ → ProviderResult

/-- Modelled from the spec: the canonical financial signal resolver of §4.1,
whose fallback-source variant is not among the files under `src/`
(src/app.py's `fetch_financial_data` is the older variant without a secondary
provider).  Step 1 returns the primary's parsed ratio when usable; on any
primary failure the secondary provider is consulted and its percentage value
is divided by 100; when both fail the neutral default 1.0 is returned. -/
def resolve (primary secondary : ProviderResult) : ℚ :=
  match primary with
  | .ok q => q
  | .fail =>
    match secondary with
    | .ok p => p / 100
    | .fail => 1

/-- Accumulation loop of `fetch_news_sentiment` (src/app.py, lines 70-73):
each article is represented by its optional `title` field (`none` when the
`'title'` key is absent); `article['title']` on a missing key raises
`KeyError`, aborting the whole computation, which the `except` clause turns
into `None`. -/
def sentimentLoop (pol : String → ℚ) : ℚ → List (Option String) → Option ℚ
  | acc, [] => some acc
  | _, none :: _ => none
  | acc, some t :: rest => sentimentLoop pol (acc + pol t) rest

/-- Embedding of `fetch_news_sentiment` (src/app.py, lines 53-80).  The input
is the decoded `articles` list; TextBlob's polarity is the explicit function
`pol`.  An empty list yields the neutral score `0.0`; otherwise the average
of the per-title polarities is returned, and a missing `'title'` key anywhere
makes the whole call return `None`. -/
def fetch_news_sentiment (pol : String → ℚ) (articles : List (Option String)) : Option ℚ :=
  if articles.isEmpty then some 0
  else
    match sentimentLoop pol 0 articles with
    | none => none
    | some s => some (s / articles.length)

/-- News signal of the canonical sentiment aggregator: average headline
polarity plus the most polarizing headline. -/
structure NewsSignal where
  average_sentiment : ℚ
  top_headline : String
deriving DecidableEq

/-- Modelled from the spec: the scan of §4.2 that keeps the current most
polarizing headline and replaces it only when a strictly greater absolute
polarity is encountered, so the first maximal entry wins. -/
def scanTop (pol : String → ℚ) : String → ℚ → List String → String
  | best, _, [] => best
  | best, bestAbs, x :: rest =>
    if bestAbs < |pol x| then scanTop pol x |pol x| rest
    else scanTop pol best bestAbs rest

/-- Modelled from the spec: the canonical sentiment aggregator of §4.2 with
the `top_headline` feature, whose feature-complete variant is not among the
files under `src/` (src/app.py's `fetch_news_sentiment` computes only the
average).  Empty input gives the neutral default `{0.0, "N/A"}`; otherwise
the arithmetic mean of the polarities over the headlines in input order, and
the first headline of strictly greatest absolute polarity. -/
def aggregate (pol : String → ℚ) : List String → NewsSignal
  | [] => ⟨0, "N/A"⟩
  | h :: rest =>
    ⟨((h :: rest).map pol).sum / (h :: rest).length, scanTop pol h (|pol h|) rest⟩

/-- Polarity table of the spec's aggregator example: headline "A" scores 0.1
and headline "B" scores -0.9. -/
def examplePol (t : String) : ℚ :=
  if t = "A" then 1/10 else if t = "B" then -(9/10) else 0

/-- C1: for every debt-to-equity input `d ≥ 0` and every average sentiment
`s ∈ [-1, 1]`, the score returned by the scoring engine lies in `[0, 100]`. -/
theorem score_in_range (d s : ℚ) (hd : 0 ≤ d) (hs₁ : -1 ≤ s) (hs₂ : s ≤ 1) :
    0 ≤ (predict_credit_score d s).1 ∧ (predict_credit_score d s).1 ≤ 100 := by
  rw [predict_credit_score_eq]
  dsimp only
  omega

/-- Witness for C1 at the concrete input `d = 3`, `s = 0`. -/
theorem score_in_range_witness :
    (0 : ℚ) ≤ 3 ∧ (-1 : ℚ) ≤ 0 ∧ (0 : ℚ) ≤ 1 ∧
      (0 ≤ (predict_credit_score 3 0).1 ∧ (predict_credit_score 3 0).1 ≤ 100) :=
  ⟨by decide, by decide, by decide, score_in_range 3 0 (by decide) (by decide) (by decide)⟩

/-- C3: boundary values resolve exactly as tabulated.  `d = 0.5` takes the
"Healthy Debt-to-Equity" branch (+10, score 60), not "Very Low"; `d = 1.0`
takes the "High Debt-to-Equity" branch (-20, score 30), not "Healthy";
`s = 0.2` and `s = -0.2` take the neutral sentiment branch (+0). -/
theorem boundary_branches :
    predict_credit_score (1/2) 0 = (60, ["Base Score: 50", healthyMsg (1/2), neutralMsg 0]) ∧
    predict_credit_score 1 0 = (30, ["Base Score: 50", highMsg 1, neutralMsg 0]) ∧
    predict_credit_score (3/10) (1/5) =
      (70, ["Base Score: 50", veryLowMsg (3/10), neutralMsg (1/5)]) ∧
    predict_credit_score (3/10) (-(1/5)) =
      (70, ["Base Score: 50", veryLowMsg (3/10), neutralMsg (-(1/5))]) := by
  refine ⟨?_, ?_, ?_, ?_⟩ <;> norm_num [predict_credit_score]

/-- C4: for every input the explanation is exactly the base line followed by
the leverage-rule line and the sentiment-rule line, in that order; hence it
has exactly 3 entries and its first entry is "Base Score: 50". -/
theorem explanation_shape (d s : ℚ) :
    (predict_credit_score d s).2 = ["Base Score: 50", leverageLine d, sentimentLine s] ∧
    (predict_credit_score d s).2.length = 3 ∧
    (predict_credit_score d s).2.head? = some "Base Score: 50" := by
  rw [predict_credit_score_eq]
  exact ⟨rfl, rfl, rfl⟩

/-- C5: the clamp to `[0, 100]` is applied exactly once, after both rule
deltas are summed; in particular `d = 0.1, s = 0.5` yields raw 90 and final
score 90, and `d = 2.0, s = -0.9` yields raw 10 and final score 10. -/
theorem clamp_once :
    (∀ d s : ℚ,
      (predict_credit_score d s).1 = max 0 (min 100 (50 + leverageDelta d + sentimentDelta s))) ∧
    (predict_credit_score (1/10) (1/2)).1 = 90 ∧
    (predict_credit_score 2 (-(9/10))).1 = 10 := by
  refine ⟨fun d s => by rw [predict_credit_score_eq], ?_, ?_⟩ <;>
    norm_num [predict_credit_score]

/-- C8: the scoring engine is pure, deterministic and total: it is a total
function of its two numeric inputs, and equal inputs give equal
score-and-explanation outputs. -/
theorem engine_deterministic (d s d' s' : ℚ) (hd : d = d') (hs : s = s') :
    predict_credit_score d s = predict_credit_score d' s' := by
  rw [hd, hs]

/-- Witness for C8 at the concrete input `d = 1, s = 0` on both runs. -/
theorem engine_deterministic_witness :
    (1 : ℚ) = 1 ∧ (0 : ℚ) = 0 ∧ predict_credit_score 1 0 = predict_credit_score 1 0 :=
  ⟨rfl, rfl, engine_deterministic 1 0 1 0 rfl rfl⟩

/-- C9: for every input the pre-clamp total `50 + leverage delta + sentiment
delta` is one of 10, 30, 40, 50, 60, 70, 80, 90, so the final clamp never
changes the value: the returned score equals the raw sum exactly. -/
theorem raw_score_values (d s : ℚ) :
    (50 + leverageDelta d + sentimentDelta s) ∈ ([10, 30, 40, 50, 60, 70, 80, 90] : List Int) ∧
    (predict_credit_score d s).1 = 50 + leverageDelta d + sentimentDelta s := by
  rw [predict_credit_score_eq]
  dsimp only
  unfold leverageDelta sentimentDelta
  split_ifs <;> exact ⟨by decide, by omega⟩

/-- C2: the canonical resolver never fails: it returns the primary's parsed
ratio when usable, the secondary's percentage value divided by 100 when the
primary fails (150 percent resolving to 1.5), and the neutral default 1.0
when both providers fail. -/
theorem resolve_never_fails (q p : ℚ) (sec : ProviderResult) :
    resolve (.ok q) sec = q ∧
    resolve .fail (.ok p) = p / 100 ∧
    resolve .fail (.ok 150) = 3/2 ∧
    resolve .fail .fail = 1 :=
  ⟨rfl, rfl, by norm_num [resolve], rfl⟩

theorem sentimentLoop_none (pol : String → ℚ) :
    ∀ (articles : List (Option String)) (acc : ℚ), none ∈ articles →
      sentimentLoop pol acc articles = none := by
  intro articles
  induction articles with
  | nil =>
    intro acc h
    simp at h
  | cons a rest ih =>
    intro acc h
    cases a with
    | none => rfl
    | some t =>
      have hrest : none ∈ rest := by simpa using h
      rw [sentimentLoop]
      exact ih _ hrest

theorem sentimentLoop_map_some (pol : String → ℚ) :
    ∀ (titles : List String) (acc : ℚ),
      sentimentLoop pol acc (titles.map some) = some (acc + (titles.map pol).sum) := by
  intro titles
  induction titles with
  | nil =>
    intro acc
    simp [sentimentLoop]
  | cons t rest ih =>
    intro acc
    rw [List.map_cons, sentimentLoop, ih]
    rw [List.map_cons, List.sum_cons]
    ring_nf

/-- C10: an article without a `'title'` key makes the sentiment computation
fail as a whole: `fetch_news_sentiment` returns `None` and no average over
the remaining titles is produced. -/
theorem missing_title_fails (pol : String → ℚ) (articles : List (Option String))
    (h : none ∈ articles) : fetch_news_sentiment pol articles = none := by
  have hne : ¬ articles.isEmpty := by
    cases articles with
    | nil => simp at h
    | cons a rest => simp
  unfold fetch_news_sentiment
  rw [if_neg hne, sentimentLoop_none pol articles 0 h]

/-- Witness for C10 on a two-article list whose second article has no title. -/
theorem missing_title_fails_witness :
    none ∈ [some "Good results", none] ∧
      fetch_news_sentiment (fun _ => 0) [some "Good results", none] = none :=
  ⟨by decide, missing_title_fails (fun _ => 0) [some "Good results", none] (by decide)⟩

/-- C7: the aggregator returns the neutral default `{0.0, "N/A"}` on an empty
headline list and otherwise the arithmetic mean of the per-headline
polarities in input order; src's `fetch_news_sentiment` likewise returns 0.0
on an empty articles list and the same mean when every article has a
title. -/
theorem aggregate_mean (pol : String → ℚ) (titles : List String) (h : titles ≠ []) :
    aggregate pol [] = ⟨0, "N/A"⟩ ∧
    fetch_news_sentiment pol [] = some 0 ∧
    (aggregate pol titles).average_sentiment = (titles.map pol).sum / titles.length ∧
    fetch_news_sentiment pol (titles.map some) =
      some ((titles.map pol).sum / titles.length) := by
  refine ⟨rfl, rfl, ?_, ?_⟩
  · match titles, h with
    | t :: rest, _ => rfl
  · have hne : ¬ (titles.map some).isEmpty := by
      cases titles with
      | nil => exact absurd rfl h
      | cons t rest => simp
    unfold fetch_news_sentiment
    rw [if_neg hne, sentimentLoop_map_some]
    simp

theorem examplePol_A : examplePol "A" = 1/10 := by
  rw [examplePol, if_pos rfl]

theorem examplePol_B : examplePol "B" = -(9/10) := by
  rw [examplePol, if_neg (by decide), if_pos rfl]

theorem exampleAvg :
    ((["A", "B"] : List String).map examplePol).sum / (["A", "B"] : List String).length
      = -(2/5) := by
  norm_num [examplePol_A, examplePol_B]

/-- Witness for C7 on the spec's example: headlines `["A", "B"]` with
polarities 0.1 and -0.9 average to -0.4. -/
theorem aggregate_mean_witness :
    (["A", "B"] : List String) ≠ [] ∧
    (aggregate examplePol [] = ⟨0, "N/A"⟩ ∧
      fetch_news_sentiment examplePol [] = some 0 ∧
      (aggregate examplePol ["A", "B"]).average_sentiment =
        ((["A", "B"] : List String).map examplePol).sum / (["A", "B"] : List String).length ∧
      fetch_news_sentiment examplePol ((["A", "B"] : List String).map some) =
        some (((["A", "B"] : List String).map examplePol).sum /
          (["A", "B"] : List String).length)) ∧
    ((["A", "B"] : List String).map examplePol).sum / (["A", "B"] : List String).length
      = -(2/5) :=
  ⟨by decide, aggregate_mean examplePol ["A", "B"] (by decide), exampleAvg⟩

theorem scanTop_split (pol : String → ℚ) :
    ∀ (l : List String) (best : String),
      ∃ pre post,
        best :: l = pre ++ scanTop pol best (|pol best|) l :: post ∧
        (∀ y ∈ pre, |pol y| < |pol (scanTop pol best (|pol best|) l)|) ∧
        (∀ y ∈ best :: l, |pol y| ≤ |pol (scanTop pol best (|pol best|) l)|) := by
  intro l
  induction l with
  | nil =>
    intro best
    refine ⟨[], [], rfl, by simp, ?_⟩
    intro y hy
    rw [List.mem_singleton] at hy
    rw [hy, scanTop]
  | cons x rest ih =>
    intro best
    by_cases hx : |pol best| < |pol x|
    · have hs : scanTop pol best (|pol best|) (x :: rest) = scanTop pol x (|pol x|) rest := by
        rw [scanTop, if_pos hx]
      rw [hs]
      obtain ⟨pre, post, heq, hpre, hall⟩ := ih x
      have hxmem : |pol x| ≤ |pol (scanTop pol x (|pol x|) rest)| :=
        hall x (List.mem_cons_self x rest)
      refine ⟨best :: pre, post, ?_, ?_, ?_⟩
      · rw [List.cons_append, ← heq]
      · intro y hy
        rcases List.mem_cons.mp hy with rfl | hy'
        · exact lt_of_lt_of_le hx hxmem
        · exact hpre y hy'
      · intro y hy
        rcases List.mem_cons.mp hy with rfl | hy'
        · exact le_of_lt (lt_of_lt_of_le hx hxmem)
        · exact hall y hy'
    · have hs : scanTop pol best (|pol best|) (x :: rest) = scanTop pol best (|pol best|) rest := by
        rw [scanTop, if_neg hx]
      rw [hs]
      have hxle : |pol x| ≤ |pol best| := le_of_not_lt hx
      obtain ⟨pre, post, heq, hpre, hall⟩ := ih best
      have hbest : |pol best| ≤ |pol (scanTop pol best (|pol best|) rest)| :=
        hall best (List.mem_cons_self best rest)
      cases pre with
      | nil =>
        rw [List.nil_append] at heq
        injection heq with hb hp
        refine ⟨[], x :: rest, ?_, by simp, ?_⟩
        · rw [List.nil_append, ← hb]
        · intro y hy
          rcases List.mem_cons.mp hy with rfl | hy'
          · rw [← hb]
          · rcases List.mem_cons.mp hy' with rfl | hy''
            · rw [← hb]; exact hxle
            · exact hall y (List.mem_cons_of_mem best hy'')
      | cons b pre₂ =>
        rw [List.cons_append] at heq
        injection heq with hb hp
        have hbmem : best ∈ b :: pre₂ := by rw [hb]; exact List.mem_cons_self b pre₂
        have hbstrict : |pol best| < |pol (scanTop pol best (|pol best|) rest)| :=
          hpre best hbmem
        refine ⟨best :: x :: pre₂, post, ?_, ?_, ?_⟩
        · rw [List.cons_append, List.cons_append, ← hp]
        · intro y hy
          rcases List.mem_cons.mp hy with rfl | hy'
          · exact hbstrict
          · rcases List.mem_cons.mp hy' with rfl | hy''
            · exact lt_of_le_of_lt hxle hbstrict
            · exact hpre y (List.mem_cons_of_mem b hy'')
        · intro y hy
          rcases List.mem_cons.mp hy with rfl | hy'
          · exact hall y (List.mem_cons_self y rest)
          · rcases List.mem_cons.mp hy' with rfl | hy''
            · exact le_trans hxle hbest
            · exact hall y (List.mem_cons_of_mem best hy'')

theorem exampleTop : (aggregate examplePol ["A", "B"]).top_headline = "B" := by
  norm_num [aggregate, scanTop, examplePol_A, examplePol_B]
  rw [abs_of_nonneg (by norm_num : (0:ℚ) ≤ 1/10), abs_of_nonneg (by norm_num : (0:ℚ) ≤ 9/10)]
  norm_num

/-- C6: for every non-empty headline list, the aggregator's top headline is
the first headline of maximal absolute polarity: the list splits as
`pre ++ top :: post` where every earlier headline has strictly smaller
absolute polarity and no headline anywhere has greater absolute polarity
(strictly-greater comparison, first maximal entry kept). -/
theorem top_headline_first_max (pol : String → ℚ) (hs : List String) (h : hs ≠ []) :
    ∃ pre post,
      hs = pre ++ (aggregate pol hs).top_headline :: post ∧
      (∀ y ∈ pre, |pol y| < |pol ((aggregate pol hs).top_headline)|) ∧
      (∀ y ∈ hs, |pol y| ≤ |pol ((aggregate pol hs).top_headline)|) := by
  match hs, h with
  | x :: rest, _ =>
    have ha : (aggregate pol (x :: rest)).top_headline = scanTop pol x (|pol x|) rest := rfl
    rw [ha]
    exact scanTop_split pol rest x

/-- Witness for C6 on the spec's example: polarities 0.1 and -0.9 on
`["A", "B"]` give top headline "B". -/
theorem top_headline_first_max_witness :
    (["A", "B"] : List String) ≠ [] ∧
    (∃ pre post,
      (["A", "B"] : List String) =
        pre ++ (aggregate examplePol ["A", "B"]).top_headline :: post ∧
      (∀ y ∈ pre,
        |examplePol y| < |examplePol ((aggregate examplePol ["A", "B"]).top_headline)|) ∧
      (∀ y ∈ (["A", "B"] : List String),
        |examplePol y| ≤ |examplePol ((aggregate examplePol ["A", "B"]).top_headline)|)) ∧
    (aggregate examplePol ["A", "B"]).top_headline = "B" :=
  ⟨by decide, top_headline_first_max examplePol ["A", "B"] (by decide), exampleTop⟩

end CredTech
